import Mathlib

/-!
Verification development for the fitness-tracker application (`app.py`).

The application's numeric code runs on Python floats; we embed it over `ℚ`
with exact arithmetic. Python's `round` (nearest, ties to even) is
modelled by `pyRound`/`round1`. All concrete values checked below are far
from rounding ties, where the rational and the IEEE-double computations
agree on every rounded result.
-/

/-- Python's built-in `round(x)` on a number: nearest integer, ties to even. -/
def pyRound (x : ℚ) : ℤ :=
  let f : ℤ := ⌊x⌋
  let frac : ℚ := x - f
  if frac < 1/2 then f
  else if 1/2 < frac then f + 1
  else if f % 2 = 0 then f else f + 1

/-- Python's `round(x, 1)`: round to one decimal place, ties to even. -/
def round1 (x : ℚ) : ℚ := (pyRound (10 * x) : ℚ) / 10

/-- The `User` model of `app.py` (its biometric, goal and derived goal-target
columns; columns irrelevant to the claims, such as `email` or
`password_hash`, are omitted). Numeric `Float` columns are embedded as `ℚ`. -/
structure User where
  id : ℕ
  age : ℤ
  gender : String
  height : ℚ
  weight : ℚ
  activity_level : String
  goal : String
  calorie_goal : ℚ
  protein_goal : ℚ
  carbs_goal : ℚ
  fats_goal : ℚ
deriving DecidableEq

/-- The `activity_multipliers` dict of `calculate_user_macros`, as an
association list (a Python dict with string keys). -/
def activity_multipliers : List (String × ℚ) :=
  [("sedentary", 1.2), ("light", 1.375), ("moderate", 1.55),
   ("active", 1.725), ("very_active", 1.9)]

/-- The `goal_adjustments` dict of `calculate_user_macros`. -/
def goal_adjustments : List (String × ℚ) :=
  [("lose", -500), ("maintain", 0), ("gain", 300)]

/-- The result dict returned by `calculate_user_macros`
(`bmr`/`tdee`/`calories` are `round(_)` integers, the rest `round(_, 1)`). -/
structure MacroResult where
  bmr : ℤ
  tdee : ℤ
  calories : ℤ
  protein : ℚ
  carbs : ℚ
  fats : ℚ
deriving DecidableEq

/-- `calculate_user_macros(user)` from `app.py` (lines 306-361): computes
BMR by Mifflin-St Jeor, TDEE, calorie goal and the macro split, stores the
rounded goals on the user row (its `db.session.commit()` persists exactly
these four assignments) and returns the result dict. The returned pair is
(updated user row, returned dict). -/
def calculate_user_macros (user : User) : User × MacroResult :=
  let bmr : ℚ :=
    if user.gender = "male" then
      (10 * user.weight) + (6.25 * user.height) - (5 * (user.age : ℚ)) + 5
    else
      (10 * user.weight) + (6.25 * user.height) - (5 * (user.age : ℚ)) - 161
  let activity_multiplier : ℚ := (activity_multipliers.lookup user.activity_level).getD 1.55
  let tdee : ℚ := bmr * activity_multiplier
  let goal_adjustment : ℚ := (goal_adjustments.lookup user.goal).getD 0
  let calorie_goal : ℚ := tdee + goal_adjustment
  let protein_multiplier : ℚ :=
    if user.goal = "gain" then 2.2
    else if user.goal = "lose" then 2.4
    else 2.0
  let protein_goal : ℚ := user.weight * protein_multiplier
  let fats_goal : ℚ := (calorie_goal * 0.25) / 9
  let protein_calories : ℚ := protein_goal * 4
  let fat_calories : ℚ := fats_goal * 9
  let remaining_calories : ℚ := calorie_goal - protein_calories - fat_calories
  let carbs_goal : ℚ := remaining_calories / 4
  ({ user with
      calorie_goal := (pyRound calorie_goal : ℚ)
      protein_goal := round1 protein_goal
      carbs_goal := round1 carbs_goal
      fats_goal := round1 fats_goal },
   { bmr := pyRound bmr
     tdee := pyRound tdee
     calories := pyRound calorie_goal
     protein := round1 protein_goal
     carbs := round1 carbs_goal
     fats := round1 fats_goal })

/-- Step 1 of spec §4.1, written from the spec's words: the Mifflin-St Jeor
BMR (`+5` exactly when gender is the string `male`, `-161` otherwise). -/
def spec_bmr (u : User) : ℚ :=
  if u.gender = "male" then
    (10 * u.weight) + (6.25 * u.height) - (5 * (u.age : ℚ)) + 5
  else
    (10 * u.weight) + (6.25 * u.height) - (5 * (u.age : ℚ)) - 161

/-- Step 2 of spec §4.1, written from the spec's words: the activity
multiplier table with default 1.55 for an unrecognized level. -/
def spec_activity_multiplier (level : String) : ℚ :=
  if level = "sedentary" then 1.2
  else if level = "light" then 1.375
  else if level = "moderate" then 1.55
  else if level = "active" then 1.725
  else if level = "very_active" then 1.9
  else 1.55

/-- Step 3 of spec §4.1: TDEE = BMR × activity multiplier. -/
def spec_tdee (u : User) : ℚ := spec_bmr u * spec_activity_multiplier u.activity_level

/-- Step 4 of spec §4.1, written from the spec's words: the goal adjustment
table with default 0 for an unrecognized goal. -/
def spec_goal_adjustment (goal : String) : ℚ :=
  if goal = "lose" then -500
  else if goal = "maintain" then 0
  else if goal = "gain" then 300
  else 0

/-- Step 4 of spec §4.1: calorie goal = TDEE + adjustment (unrounded). -/
def spec_calorie_goal (u : User) : ℚ := spec_tdee u + spec_goal_adjustment u.goal

/-- Step 5 of spec §4.1: the protein multiplier by goal. -/
def spec_protein_multiplier (goal : String) : ℚ :=
  if goal = "gain" then 2.2
  else if goal = "lose" then 2.4
  else 2.0

/-- Step 5 of spec §4.1: protein goal in grams (unrounded). -/
def spec_protein_goal (u : User) : ℚ := u.weight * spec_protein_multiplier u.goal

/-- Step 6 of spec §4.1: fats goal in grams (unrounded). -/
def spec_fats_goal (u : User) : ℚ := (spec_calorie_goal u * 0.25) / 9

/-- Step 7 of spec §4.1: carbs goal in grams (unrounded), not clamped. -/
def spec_carbs_goal (u : User) : ℚ :=
  (spec_calorie_goal u - spec_protein_goal u * 4 - spec_fats_goal u * 9) / 4

/-! ### Evaluation lemmas for the rounding helpers -/

lemma pyRound_eq_down {x : ℚ} {n : ℤ} (h1 : (n : ℚ) ≤ x) (h2 : x < (n : ℚ) + 1/2) :
    pyRound x = n := by
  have hf : ⌊x⌋ = n := Int.floor_eq_iff.mpr ⟨h1, by linarith⟩
  have hfr : x - (n : ℚ) < 1/2 := by linarith
  simp only [pyRound, hf, if_pos hfr]

lemma pyRound_eq_up {x : ℚ} {n m : ℤ} (hm : n + 1 = m)
    (h1 : (n : ℚ) + 1/2 < x) (h2 : x < (n : ℚ) + 1) : pyRound x = m := by
  have hf : ⌊x⌋ = n := Int.floor_eq_iff.mpr ⟨by linarith, by linarith⟩
  have h3 : ¬(x - (n : ℚ) < 1/2) := by linarith
  have h4 : 1/2 < x - (n : ℚ) := by linarith
  simp only [pyRound, hf, if_neg h3, if_pos h4, hm]

lemma round1_eq_down {x : ℚ} {n : ℤ} {y : ℚ} (hy : (n : ℚ) / 10 = y)
    (h1 : (n : ℚ) ≤ 10 * x) (h2 : 10 * x < (n : ℚ) + 1/2) : round1 x = y := by
  rw [round1, pyRound_eq_down h1 h2, hy]

lemma round1_eq_up {x : ℚ} {n : ℤ} {y : ℚ} (hy : ((n : ℚ) + 1) / 10 = y)
    (h1 : (n : ℚ) + 1/2 < 10 * x) (h2 : 10 * x < (n : ℚ) + 1) : round1 x = y := by
  rw [round1, pyRound_eq_up rfl h1 h2]; push_cast; rw [hy]

/-! ### The dict lookups agree with the spec's case tables -/

lemma lookup_activity (s : String) :
    (activity_multipliers.lookup s).getD 1.55 = spec_activity_multiplier s := by
  by_cases h1 : s = "sedentary"
  · subst h1; rfl
  by_cases h2 : s = "light"
  · subst h2; rfl
  by_cases h3 : s = "moderate"
  · subst h3; rfl
  by_cases h4 : s = "active"
  · subst h4; rfl
  by_cases h5 : s = "very_active"
  · subst h5; rfl
  have e1 : (s == "sedentary") = false := by simp [h1]
  have e2 : (s == "light") = false := by simp [h2]
  have e3 : (s == "moderate") = false := by simp [h3]
  have e4 : (s == "active") = false := by simp [h4]
  have e5 : (s == "very_active") = false := by simp [h5]
  simp only [activity_multipliers, spec_activity_multiplier, List.lookup,
    e1, e2, e3, e4, e5, if_neg h1, if_neg h2, if_neg h3, if_neg h4, if_neg h5,
    Option.getD_none]

lemma lookup_goal_adjustment (s : String) :
    (goal_adjustments.lookup s).getD 0 = spec_goal_adjustment s := by
  by_cases h1 : s = "lose"
  · subst h1; rfl
  by_cases h2 : s = "maintain"
  · subst h2; rfl
  by_cases h3 : s = "gain"
  · subst h3; rfl
  have e1 : (s == "lose") = false := by simp [h1]
  have e2 : (s == "maintain") = false := by simp [h2]
  have e3 : (s == "gain") = false := by simp [h3]
  simp only [goal_adjustments, spec_goal_adjustment, List.lookup,
    e1, e2, e3, if_neg h1, if_neg h2, if_neg h3, Option.getD_none]

/-- Master characterization: `calculate_user_macros` computes exactly the
spec §4.1 pipeline, with the code's rounding applied at the end. -/
lemma calculate_user_macros_eq (u : User) :
    calculate_user_macros u =
      ({ u with
          calorie_goal := (pyRound (spec_calorie_goal u) : ℚ)
          protein_goal := round1 (spec_protein_goal u)
          carbs_goal := round1 (spec_carbs_goal u)
          fats_goal := round1 (spec_fats_goal u) },
       { bmr := pyRound (spec_bmr u)
         tdee := pyRound (spec_tdee u)
         calories := pyRound (spec_calorie_goal u)
         protein := round1 (spec_protein_goal u)
         carbs := round1 (spec_carbs_goal u)
         fats := round1 (spec_fats_goal u) }) := by
  simp only [calculate_user_macros, lookup_activity, lookup_goal_adjustment,
    spec_carbs_goal, spec_fats_goal, spec_protein_goal, spec_protein_multiplier,
    spec_calorie_goal, spec_tdee, spec_goal_adjustment, spec_bmr,
    spec_activity_multiplier]

/-- The profile of the spec's first worked example: male, 30y, 175 cm,
70 kg, moderate activity, maintain goal (pre-recompute goal columns at the
model defaults 2000/150/200/65). -/
def exampleMaleUser : User :=
  { id := 1, age := 30, gender := "male", height := 175, weight := 70,
    activity_level := "moderate", goal := "maintain",
    calorie_goal := 2000, protein_goal := 150, carbs_goal := 200, fats_goal := 65 }

/-- The profile of the spec's second worked example: female, 25y, 160 cm,
60 kg, sedentary activity, lose goal. -/
def exampleFemaleUser : User :=
  { id := 2, age := 25, gender := "female", height := 160, weight := 60,
    activity_level := "sedentary", goal := "lose",
    calorie_goal := 2000, protein_goal := 150, carbs_goal := 200, fats_goal := 65 }

lemma male_spec_values :
    spec_bmr exampleMaleUser = 6595/4 ∧
    spec_tdee exampleMaleUser = 40889/16 ∧
    spec_calorie_goal exampleMaleUser = 40889/16 ∧
    spec_protein_goal exampleMaleUser = 140 ∧
    spec_fats_goal exampleMaleUser = 40889/576 ∧
    spec_carbs_goal exampleMaleUser = 86827/256 := by
  simp +decide only [spec_bmr, spec_calorie_goal, spec_tdee, spec_activity_multiplier,
    spec_goal_adjustment, spec_protein_goal, spec_protein_multiplier,
    spec_fats_goal, spec_carbs_goal, exampleMaleUser]
  norm_num

lemma female_spec_values :
    spec_bmr exampleFemaleUser = 1314 ∧
    spec_tdee exampleFemaleUser = 7884/5 ∧
    spec_calorie_goal exampleFemaleUser = 5384/5 ∧
    spec_protein_goal exampleFemaleUser = 144 ∧
    spec_fats_goal exampleFemaleUser = 1346/45 ∧
    spec_carbs_goal exampleFemaleUser = 579/10 := by
  simp +decide only [spec_bmr, spec_calorie_goal, spec_tdee, spec_activity_multiplier,
    spec_goal_adjustment, spec_protein_goal, spec_protein_multiplier,
    spec_fats_goal, spec_carbs_goal, exampleFemaleUser]
  norm_num

lemma male_result :
    calculate_user_macros exampleMaleUser =
      ({ exampleMaleUser with
          calorie_goal := 2556, protein_goal := 140, carbs_goal := 339.2, fats_goal := 71 },
       { bmr := 1649, tdee := 2556, calories := 2556,
         protein := 140, carbs := 339.2, fats := 71 }) := by
  obtain ⟨hb, ht, hc, hp, hf, hca⟩ := male_spec_values
  have r1 : pyRound (spec_bmr exampleMaleUser) = 1649 := by
    rw [hb]; exact pyRound_eq_up (n := 1648) (by norm_num) (by norm_num) (by norm_num)
  have r2 : pyRound (spec_tdee exampleMaleUser) = 2556 := by
    rw [ht]; exact pyRound_eq_up (n := 2555) (by norm_num) (by norm_num) (by norm_num)
  have r3 : pyRound (spec_calorie_goal exampleMaleUser) = 2556 := by
    rw [hc]; exact pyRound_eq_up (n := 2555) (by norm_num) (by norm_num) (by norm_num)
  have r4 : round1 (spec_protein_goal exampleMaleUser) = 140 := by
    rw [hp]; exact round1_eq_down (n := 1400) (by norm_num) (by norm_num) (by norm_num)
  have r5 : round1 (spec_fats_goal exampleMaleUser) = 71 := by
    rw [hf]; exact round1_eq_up (n := 709) (by norm_num) (by norm_num) (by norm_num)
  have r6 : round1 (spec_carbs_goal exampleMaleUser) = 339.2 := by
    rw [hca]; exact round1_eq_up (n := 3391) (by norm_num) (by norm_num) (by norm_num)
  rw [calculate_user_macros_eq, r1, r2, r3, r4, r5, r6]
  norm_num

lemma female_result :
    calculate_user_macros exampleFemaleUser =
      ({ exampleFemaleUser with
          calorie_goal := 1077, protein_goal := 144, carbs_goal := 57.9, fats_goal := 29.9 },
       { bmr := 1314, tdee := 1577, calories := 1077,
         protein := 144, carbs := 57.9, fats := 29.9 }) := by
  obtain ⟨hb, ht, hc, hp, hf, hca⟩ := female_spec_values
  have r1 : pyRound (spec_bmr exampleFemaleUser) = 1314 := by
    rw [hb]; exact pyRound_eq_down (by norm_num) (by norm_num)
  have r2 : pyRound (spec_tdee exampleFemaleUser) = 1577 := by
    rw [ht]; exact pyRound_eq_up (n := 1576) (by norm_num) (by norm_num) (by norm_num)
  have r3 : pyRound (spec_calorie_goal exampleFemaleUser) = 1077 := by
    rw [hc]; exact pyRound_eq_up (n := 1076) (by norm_num) (by norm_num) (by norm_num)
  have r4 : round1 (spec_protein_goal exampleFemaleUser) = 144 := by
    rw [hp]; exact round1_eq_down (n := 1440) (by norm_num) (by norm_num) (by norm_num)
  have r5 : round1 (spec_fats_goal exampleFemaleUser) = 29.9 := by
    rw [hf]; exact round1_eq_down (n := 299) (by norm_num) (by norm_num) (by norm_num)
  have r6 : round1 (spec_carbs_goal exampleFemaleUser) = 57.9 := by
    rw [hca]; exact round1_eq_down (n := 579) (by norm_num) (by norm_num) (by norm_num)
  rw [calculate_user_macros_eq, r1, r2, r3, r4, r5, r6]
  norm_num

/-! ### Log models and application state -/

/-- The `FoodLog` model of `app.py` (dates at day granularity,
embedded as day numbers `ℤ`; the `created_at` timestamp is omitted). -/
structure FoodLog where
  user_id : ℕ
  date : ℤ
  name : String
  calories : ℚ
  protein : ℚ
  carbs : ℚ
  fats : ℚ
deriving DecidableEq

/-- The `WorkoutSession` model of `app.py` (timestamps embedded as `ℤ`). -/
structure WorkoutSession where
  id : ℕ
  user_id : ℕ
  date : ℤ
  start_time : ℤ
  end_time : Option ℤ
  total_duration : Option ℤ
deriving DecidableEq

/-- The `ExerciseSet` model of `app.py`. -/
structure ExerciseSet where
  workout_session_id : ℕ
  exercise_name : String
  weight : ℚ
  reps : ℤ
  set_number : ℤ
deriving DecidableEq

/-- The `BodyWeightLog` model of `app.py`. -/
structure BodyWeightLog where
  id : ℕ
  user_id : ℕ
  date : ℤ
  weight : ℚ
deriving DecidableEq

/-- The committed database state seen by one user's requests: the user's
row and the log tables. -/
structure AppDB where
  user : User
  food_logs : List FoodLog
  weight_logs : List BodyWeightLog
  sessions : List WorkoutSession
  exercise_sets : List ExerciseSet
deriving DecidableEq

/-! ### The recommendation adapter (`get_ai_recommendations`, lines 230-302)

The external call `genai.GenerativeModel(...).generate_content(prompt)`
together with the text extraction, fence stripping and `json.loads` sits
behind the network boundary; the observable outcomes of that whole `try`
prefix are: some exception was raised (caught by the handler), or a parsed
JSON object whose `recommendations` entry is a list of strings
(`result.get('recommendations', [])` yields `[]` when the key is absent).
`GenOutcome` enumerates exactly these outcomes; the code after the parse
is embedded verbatim. -/

/-- Outcome of the generative-service invocation and parse inside the
`try` block of `get_ai_recommendations`. -/
inductive GenOutcome where
  | exc : GenOutcome
  | response : List String → GenOutcome
deriving DecidableEq

/-- The fixed fallback triple of `get_ai_recommendations`. -/
def fallback_recommendations : List String :=
  ["Track your daily nutrition consistently.",
   "Maintain regular workout schedule.",
   "Get 7-8 hours of sleep for recovery."]

/-- The result-selection logic of `get_ai_recommendations` (lines 286-302):
`if recommendations and len(recommendations) >= 3: return recommendations[:3]`,
every other path (empty or short list, or any exception) returns the
fallback triple. -/
def get_ai_recommendations : GenOutcome → List String
  | GenOutcome.exc => fallback_recommendations
  | GenOutcome.response recommendations =>
      if recommendations ≠ [] ∧ 3 ≤ recommendations.length then
        recommendations.take 3
      else fallback_recommendations

/-- Line 233 of `app.py`: `week_ago = today - timedelta()`; the default
`timedelta()` is zero days. -/
def week_ago (today : ℤ) : ℤ := today - 0

/-- Lines 235-238: the in-window food logs of the user
(`FoodLog.date >= week_ago`). -/
def recent_foods (today : ℤ) (uid : ℕ) (logs : List FoodLog) : List FoodLog :=
  logs.filter (fun f => f.user_id = uid ∧ week_ago today ≤ f.date)

/-- Lines 240-243: the in-window workout sessions of the user. -/
def recent_workouts (today : ℤ) (uid : ℕ) (sessions : List WorkoutSession) :
    List WorkoutSession :=
  sessions.filter (fun s => s.user_id = uid ∧ week_ago today ≤ s.date)

/-- Line 246: `days_count = max(1, len(set(f.date for f in recent_foods)))`. -/
def days_count (foods : List FoodLog) : ℕ :=
  max 1 ((foods.map (fun f => f.date)).dedup).length

/-- Lines 245-251, average daily calories over the in-window food logs:
sum divided by `days_count` when there are entries, else 0. -/
def avg_calories (foods : List FoodLog) : ℚ :=
  if foods.isEmpty then 0
  else ((foods.map (fun f => f.calories)).sum) / (days_count foods : ℚ)

/-- Lines 245-251, average daily protein over the in-window food logs. -/
def avg_protein (foods : List FoodLog) : ℚ :=
  if foods.isEmpty then 0
  else ((foods.map (fun f => f.protein)).sum) / (days_count foods : ℚ)

/-- Line 253: `workout_count = len(recent_workouts)`. -/
def workout_count (today : ℤ) (uid : ℕ) (sessions : List WorkoutSession) : ℕ :=
  (recent_workouts today uid sessions).length

/-! ### Route handlers (state transformers over `AppDB`) -/

/-- The `register` route (lines 426-460): a fresh `User` row is inserted
with the form's fields and the model-column defaults for the goal columns
(2000/150/200/65), then `calculate_user_macros(new_user)` runs. The
returned value is the user row as committed at the end of the request. -/
def register (uid : ℕ) (age : ℤ) (gender : String) (height weight : ℚ)
    (activity_level goal : String) : User :=
  (calculate_user_macros
    { id := uid, age := age, gender := gender, height := height, weight := weight,
      activity_level := activity_level, goal := goal,
      calorie_goal := 2000, protein_goal := 150, carbs_goal := 200, fats_goal := 65 }).1

/-- The food branch of the `food_tracker` route (lines 492-504): inserts a
`FoodLog` row for the current user dated today and commits; nothing else
changes. -/
def log_food (db : AppDB) (today : ℤ) (name : String)
    (calories protein carbs fats : ℚ) : AppDB :=
  { db with food_logs := db.food_logs ++
      [{ user_id := db.user.id, date := today, name := name,
         calories := calories, protein := protein, carbs := carbs, fats := fats }] }

/-- The weight branch of the `food_tracker` route (lines 506-524), as the
list of successive committed states: the first commit (line 515) inserts
the `BodyWeightLog` row and overwrites `user.weight`; the second commit
(line 352, inside `calculate_user_macros`) stores the recomputed goal
fields. `wid` is the id the database assigns to the new row. -/
def log_weight_commits (db : AppDB) (today : ℤ) (wid : ℕ) (w : ℚ) : List AppDB :=
  let db1 : AppDB :=
    { db with
        weight_logs := db.weight_logs ++
          [{ id := wid, user_id := db.user.id, date := today, weight := w }],
        user := { db.user with weight := w } }
  let db2 : AppDB := { db1 with user := (calculate_user_macros db1.user).1 }
  [db1, db2]

/-- The final committed state of the weight branch of `food_tracker`. -/
def log_weight (db : AppDB) (today : ℤ) (wid : ℕ) (w : ℚ) : AppDB :=
  (log_weight_commits db today wid w).getLastD db

/-- The `start_workout` route (lines 569-578): inserts an open
`WorkoutSession` (no end time, no duration) dated today. -/
def start_workout (db : AppDB) (sid : ℕ) (today now : ℤ) : AppDB :=
  { db with sessions := db.sessions ++
      [{ id := sid, user_id := db.user.id, date := today, start_time := now,
         end_time := none, total_duration := none }] }

/-- The `add_exercise` route (lines 580-600): inserts an `ExerciseSet` row. -/
def add_exercise (db : AppDB) (sid : ℕ) (exercise_name : String)
    (weight : ℚ) (reps set_number : ℤ) : AppDB :=
  { db with exercise_sets := db.exercise_sets ++
      [{ workout_session_id := sid, exercise_name := exercise_name,
         weight := weight, reps := reps, set_number := set_number }] }

/-- The `finish_workout` route (lines 602-617): looks up the session; a
missing id is a 404 (`none`), otherwise the session's end time and total
duration are set. -/
def finish_workout (db : AppDB) (sid : ℕ) (now duration : ℤ) : Option AppDB :=
  if (db.sessions.find? (fun s => s.id == sid)).isSome then
    some { db with sessions := db.sessions.map (fun s =>
      if s.id = sid then { s with end_time := some now, total_duration := some duration }
      else s) }
  else none

/-- The `delete_weight` route (lines 550-562): a missing id is a 404
(`none`); an entry owned by another user is left alone; otherwise exactly
the found row is deleted. No other table and no `User` column is touched. -/
def delete_weight (db : AppDB) (weight_id : ℕ) : Option AppDB :=
  match db.weight_logs.find? (fun l => l.id == weight_id) with
  | none => none
  | some l =>
      if l.user_id = db.user.id then
        some { db with weight_logs := db.weight_logs.eraseP (fun x => x.id == weight_id) }
      else some db

/-- The POST branch of the `settings` route (lines 653-664): overwrites
weight, activity level and goal from the form, then recomputes and stores
the macro goals. -/
def settings_post (u : User) (weight : ℚ) (activity_level goal : String) : User :=
  (calculate_user_macros
    { u with weight := weight, activity_level := activity_level, goal := goal }).1

/-- The pathological profile used to show carbs can go negative: heavy,
short, old, sedentary, lose goal (high protein target, low calorie goal). -/
def pathologicalUser : User :=
  { id := 3, age := 80, gender := "female", height := 50, weight := 100,
    activity_level := "sedentary", goal := "lose",
    calorie_goal := 2000, protein_goal := 150, carbs_goal := 200, fats_goal := 65 }

lemma pathological_carbs_value :
    spec_carbs_goal pathologicalUser = -13173/80 := by
  simp +decide only [spec_carbs_goal, spec_calorie_goal, spec_tdee, spec_bmr,
    spec_activity_multiplier, spec_goal_adjustment, spec_protein_goal,
    spec_protein_multiplier, spec_fats_goal, pathologicalUser]
  norm_num

/-! ### Claims -/

/-- Claim C1, counterexample: for the profile (male, 30, 175 cm, 70 kg,
moderate, maintain) the claimed output values are false at the very first
field: `calculate_user_macros` returns BMR = 1649, not 1673 (the code's
Mifflin-St Jeor value is 10·70 + 6.25·175 − 5·30 + 5 = 1648.75). -/
theorem claim_C1_counterexample :
    ¬((calculate_user_macros exampleMaleUser).2.bmr = 1673 ∧
      (calculate_user_macros exampleMaleUser).2.tdee = 2593 ∧
      (calculate_user_macros exampleMaleUser).2.calories = 2593 ∧
      (calculate_user_macros exampleMaleUser).2.protein = 140 ∧
      (calculate_user_macros exampleMaleUser).2.fats = 72 ∧
      (calculate_user_macros exampleMaleUser).2.carbs = 346.3) := by
  rw [male_result]
  intro h
  exact absurd h.1 (by decide)

/-- Claim C1, amended: for the profile (male, age 30, height 175, weight
70, moderate, maintain), `calculate_user_macros` returns BMR = 1649,
TDEE = 2556, calorie_goal = 2556, protein_goal = 140.0, fats_goal = 71.0
and carbs_goal = 339.2, and stores these same rounded values on the
profile row. -/
theorem claim_C1_amended :
    (calculate_user_macros exampleMaleUser).2 =
      { bmr := 1649, tdee := 2556, calories := 2556,
        protein := 140, carbs := 339.2, fats := 71 } ∧
    (calculate_user_macros exampleMaleUser).1.calorie_goal = 2556 ∧
    (calculate_user_macros exampleMaleUser).1.protein_goal = 140 ∧
    (calculate_user_macros exampleMaleUser).1.fats_goal = 71 ∧
    (calculate_user_macros exampleMaleUser).1.carbs_goal = 339.2 := by
  rw [male_result]
  exact ⟨rfl, rfl, rfl, rfl, rfl⟩

/-- Claim C2, counterexample: for the profile (female, 25, 160 cm, 60 kg,
sedentary, lose) the stored and returned carbs goal is 57.9, not the
claimed 58.0: the code subtracts the unrounded protein and fat calories
(and uses the unrounded calorie goal), while 58.0 would result from
subtracting the already-rounded values. -/
theorem claim_C2_counterexample :
    (calculate_user_macros exampleFemaleUser).2.carbs ≠ 58.0 := by
  rw [female_result]
  norm_num

/-- Claim C2, amended: for the female example profile the outputs are
BMR = 1314, TDEE = 1577, calorie_goal = 1077, protein_goal = 144.0,
fats_goal = 29.9 and carbs_goal = 57.9, stored identically on the profile;
carbs is computed from the unrounded protein, fats and calorie-goal values
(the claim's rounded-first order would give 58.0 instead, last conjunct). -/
theorem claim_C2_amended :
    (calculate_user_macros exampleFemaleUser).2 =
      { bmr := 1314, tdee := 1577, calories := 1077,
        protein := 144, carbs := 57.9, fats := 29.9 } ∧
    (calculate_user_macros exampleFemaleUser).1.calorie_goal = 1077 ∧
    (calculate_user_macros exampleFemaleUser).1.protein_goal = 144 ∧
    (calculate_user_macros exampleFemaleUser).1.fats_goal = 29.9 ∧
    (calculate_user_macros exampleFemaleUser).1.carbs_goal = 57.9 ∧
    (calculate_user_macros exampleFemaleUser).2.carbs =
      round1 (spec_carbs_goal exampleFemaleUser) ∧
    round1 ((1077 - 144 * 4 - 29.9 * 9) / 4) = 58.0 := by
  obtain ⟨_, _, _, _, _, hca⟩ := female_spec_values
  refine ⟨by rw [female_result], by rw [female_result], by rw [female_result],
    by rw [female_result], by rw [female_result], ?_, ?_⟩
  · rw [female_result, hca]
    exact (round1_eq_down (n := 579) (by norm_num) (by norm_num) (by norm_num)).symm
  · have h : ((1077 : ℚ) - 144 * 4 - 29.9 * 9) / 4 = 2319/40 := by norm_num
    rw [h]
    exact round1_eq_up (n := 579) (by norm_num) (by norm_num) (by norm_num)

/-- Claim C3: for every profile, the returned BMR is the rounded
Mifflin-St Jeor value (+5 exactly for gender `male`, −161 for any other
gender), the TDEE multiplies BMR by the activity table (default 1.55 for
an unrecognized level), and the calorie goal adds the goal adjustment
(lose −500, maintain 0, gain +300, default 0), both returned rounded and
stored on the profile. -/
theorem claim_C3_bmr_tdee_caloriegoal (u : User) :
    (calculate_user_macros u).2.bmr = pyRound (spec_bmr u) ∧
    (calculate_user_macros u).2.tdee =
      pyRound (spec_bmr u * spec_activity_multiplier u.activity_level) ∧
    (calculate_user_macros u).2.calories =
      pyRound (spec_bmr u * spec_activity_multiplier u.activity_level +
        spec_goal_adjustment u.goal) ∧
    (calculate_user_macros u).1.calorie_goal =
      (pyRound (spec_bmr u * spec_activity_multiplier u.activity_level +
        spec_goal_adjustment u.goal) : ℚ) := by
  rw [calculate_user_macros_eq]
  exact ⟨rfl, rfl, rfl, rfl⟩

/-- Claim C4: for every profile, protein_goal is weight × multiplier
(2.2 for gain, 2.4 for lose, else 2.0), fats_goal is
(calorie_goal × 0.25) / 9 and carbs_goal is
(calorie_goal − protein×4 − fats×9) / 4, each rounded to one decimal and
stored; carbs is not clamped at zero and is in fact negative for the
pathological profile (100 kg, 50 cm, age 80, sedentary, lose). -/
theorem claim_C4_macro_split :
    (∀ u : User,
      (calculate_user_macros u).2.protein =
        round1 (u.weight * spec_protein_multiplier u.goal) ∧
      (calculate_user_macros u).2.fats =
        round1 ((spec_calorie_goal u * 0.25) / 9) ∧
      (calculate_user_macros u).2.carbs =
        round1 ((spec_calorie_goal u - spec_protein_goal u * 4 -
          spec_fats_goal u * 9) / 4) ∧
      (calculate_user_macros u).1.protein_goal = (calculate_user_macros u).2.protein ∧
      (calculate_user_macros u).1.fats_goal = (calculate_user_macros u).2.fats ∧
      (calculate_user_macros u).1.carbs_goal = (calculate_user_macros u).2.carbs) ∧
    (calculate_user_macros pathologicalUser).1.carbs_goal < 0 := by
  constructor
  · intro u
    rw [calculate_user_macros_eq]
    exact ⟨rfl, rfl, rfl, rfl, rfl, rfl⟩
  · rw [calculate_user_macros_eq]
    show round1 (spec_carbs_goal pathologicalUser) < 0
    rw [pathological_carbs_value,
      round1_eq_down (n := -1647) (y := -164.7) (by norm_num) (by norm_num) (by norm_num)]
    norm_num

/-- Claim C5: for every behavior of the generative service —
an exception anywhere in the invocation or parse, or a parsed response
whose `recommendations` list has any length (a missing key yields the
empty list) — `get_ai_recommendations` returns a list of exactly 3
strings; every failure shape returns exactly the fixed fallback triple,
and a parsed response with at least 3 items returns its first 3. Totality
of the function models that the handler never raises. -/
theorem claim_C5_fallback (recs : List String) :
    get_ai_recommendations GenOutcome.exc = fallback_recommendations ∧
    (get_ai_recommendations GenOutcome.exc).length = 3 ∧
    (get_ai_recommendations (GenOutcome.response recs)).length = 3 ∧
    get_ai_recommendations (GenOutcome.response recs) =
      (if 3 ≤ recs.length then recs.take 3 else fallback_recommendations) := by
  have hcase : get_ai_recommendations (GenOutcome.response recs) =
      (if 3 ≤ recs.length then recs.take 3 else fallback_recommendations) := by
    by_cases h : 3 ≤ recs.length
    · have hne : recs ≠ [] := by
        intro e
        rw [e] at h
        exact absurd h (by decide)
      simp only [get_ai_recommendations, if_pos (And.intro hne h), if_pos h]
    · have : ¬(recs ≠ [] ∧ 3 ≤ recs.length) := fun hc => h hc.2
      simp only [get_ai_recommendations, if_neg this, if_neg h]
  refine ⟨rfl, rfl, ?_, hcase⟩
  rw [hcase]
  by_cases h : 3 ≤ recs.length
  · rw [if_pos h, List.length_take]
    omega
  · rw [if_neg h]
    rfl

/-- Claim C6: for every list of in-window food entries, the aggregated
average calories and protein equal the sum over entries divided by
`max 1 (number of distinct dates)`; that divisor is always positive, and
on the empty list both averages are exactly 0. -/
theorem claim_C6_aggregation (foods : List FoodLog) :
    avg_calories foods =
      ((foods.map (fun f => f.calories)).sum) /
        ((max 1 ((foods.map (fun f => f.date)).dedup).length : ℕ) : ℚ) ∧
    avg_protein foods =
      ((foods.map (fun f => f.protein)).sum) /
        ((max 1 ((foods.map (fun f => f.date)).dedup).length : ℕ) : ℚ) ∧
    0 < days_count foods ∧
    avg_calories [] = 0 ∧
    avg_protein [] = 0 := by
  refine ⟨?_, ?_, lt_of_lt_of_le one_pos (le_max_left 1 _), ?_, ?_⟩
  · cases foods with
    | nil => simp [avg_calories]
    | cons f fs => rfl
  · cases foods with
    | nil => simp [avg_protein]
    | cons f fs => rfl
  · rfl
  · rfl

/-- Claim C7: the trailing window of `get_ai_recommendations` is
zero-length — `week_ago = today - timedelta()` equals today — so the
selected food logs are exactly the user's entries with date ≥ today, and
the workout count is the raw number of the user's sessions with
date ≥ today. -/
theorem claim_C7_window (today : ℤ) (uid : ℕ) (logs : List FoodLog)
    (sessions : List WorkoutSession) :
    week_ago today = today ∧
    recent_foods today uid logs =
      logs.filter (fun f => f.user_id = uid ∧ today ≤ f.date) ∧
    workout_count today uid sessions =
      (sessions.filter (fun s => s.user_id = uid ∧ today ≤ s.date)).length := by
  refine ⟨sub_zero today, ?_, ?_⟩
  · simp only [recent_foods, week_ago, sub_zero]
  · simp only [workout_count, recent_workouts, week_ago, sub_zero]

/-- A database state holding the male example profile (goal columns still
at the model defaults) and empty log tables. -/
def exampleDB : AppDB :=
  { user := exampleMaleUser, food_logs := [], weight_logs := [],
    sessions := [], exercise_sets := [] }

lemma weight80_calorie_goal :
    (calculate_user_macros { exampleMaleUser with weight := 80 }).1.calorie_goal = 2711 := by
  rw [calculate_user_macros_eq]
  show (pyRound (spec_calorie_goal { exampleMaleUser with weight := 80 }) : ℚ) = 2711
  have hc : spec_calorie_goal { exampleMaleUser with weight := 80 } = 43369/16 := by
    simp +decide only [spec_calorie_goal, spec_tdee, spec_bmr,
      spec_activity_multiplier, spec_goal_adjustment, exampleMaleUser]
    norm_num
  have hp : pyRound ((43369 : ℚ)/16) = 2711 :=
    pyRound_eq_up (n := 2710) (m := 2711) (by norm_num) (by norm_num) (by norm_num)
  rw [hc, hp]
  norm_num

/-- Claim C8, counterexample: logging a body weight of 80 kg against the
male example profile produces two successive commits; the first committed
state already persists the new weight (80) while the profile's
calorie_goal is still the pre-update value 2000 — although the recompute
for weight 80 yields 2711, which only the second commit stores. So a
committed intermediate state with the new weight but stale goal fields
exists, contradicting the claimed atomicity. -/
theorem claim_C8_counterexample :
    ((log_weight_commits exampleDB 100 7 80).getD 0 exampleDB).user.weight = 80 ∧
    ((log_weight_commits exampleDB 100 7 80).getD 0 exampleDB).user.calorie_goal = 2000 ∧
    (calculate_user_macros
      ((log_weight_commits exampleDB 100 7 80).getD 0 exampleDB).user).1.calorie_goal = 2711 ∧
    ((log_weight_commits exampleDB 100 7 80).getD 1 exampleDB).user.calorie_goal = 2711 ∧
    (log_weight_commits exampleDB 100 7 80).length = 2 := by
  refine ⟨rfl, rfl, ?_, ?_, rfl⟩
  · exact weight80_calorie_goal
  · show (calculate_user_macros { exampleMaleUser with weight := 80 }).1.calorie_goal = 2711
    exact weight80_calorie_goal

/-- Claim C8, amended: the weight branch of `food_tracker` commits twice.
The first commit atomically persists the new `BodyWeightLog` row together
with the profile weight overwrite, but with the goal fields untouched; the
second commit (inside `calculate_user_macros`) stores the recomputed goal
fields. There is therefore a committed intermediate state in which the new
weight is persisted while the goal fields still reflect the old weight. -/
theorem claim_C8_amended (db : AppDB) (today : ℤ) (wid : ℕ) (w : ℚ) :
    log_weight_commits db today wid w =
      [{ db with
          weight_logs := db.weight_logs ++
            [{ id := wid, user_id := db.user.id, date := today, weight := w }],
          user := { db.user with weight := w } },
       { db with
          weight_logs := db.weight_logs ++
            [{ id := wid, user_id := db.user.id, date := today, weight := w }],
          user := (calculate_user_macros { db.user with weight := w }).1 }] := rfl

/-- Claim C9: goal recomputation runs exactly at the three triggers —
registration stores the macros computed for the fresh profile, logging a
body weight ends with the macros recomputed for the new weight, and the
settings POST recomputes for the updated weight/activity/goal — while
logging food and creating/extending/finishing a workout session leave the
whole user row (in particular the four goal fields) unchanged. -/
theorem claim_C9_triggers :
    (∀ (uid : ℕ) (age : ℤ) (gender : String) (height weight : ℚ)
        (activity_level goal : String),
      register uid age gender height weight activity_level goal =
        (calculate_user_macros
          { id := uid, age := age, gender := gender, height := height,
            weight := weight, activity_level := activity_level, goal := goal,
            calorie_goal := 2000, protein_goal := 150,
            carbs_goal := 200, fats_goal := 65 }).1) ∧
    (∀ (db : AppDB) (today : ℤ) (wid : ℕ) (w : ℚ),
      (log_weight db today wid w).user =
        (calculate_user_macros { db.user with weight := w }).1) ∧
    (∀ (u : User) (w : ℚ) (al g : String),
      settings_post u w al g =
        (calculate_user_macros { u with weight := w, activity_level := al, goal := g }).1) ∧
    (∀ (db : AppDB) (today : ℤ) (name : String) (c p cb f : ℚ),
      (log_food db today name c p cb f).user = db.user) ∧
    (∀ (db : AppDB) (sid : ℕ) (today now : ℤ),
      (start_workout db sid today now).user = db.user) ∧
    (∀ (db : AppDB) (sid : ℕ) (en : String) (w : ℚ) (reps sn : ℤ),
      (add_exercise db sid en w reps sn).user = db.user) ∧
    (∀ (db : AppDB) (sid : ℕ) (now dur : ℤ),
      ((finish_workout db sid now dur).getD db).user = db.user) := by
  refine ⟨fun _ _ _ _ _ _ _ => rfl, fun _ _ _ _ => rfl, fun _ _ _ _ => rfl,
    fun _ _ _ _ _ _ _ => rfl, fun _ _ _ _ => rfl, fun _ _ _ _ _ _ => rfl,
    fun db sid now dur => ?_⟩
  unfold finish_workout
  by_cases h : (db.sessions.find? (fun s => s.id == sid)).isSome
  · rw [if_pos h]
    rfl
  · rw [if_neg h]
    rfl

/-- Claim C10: deleting a body-weight entry (when the id exists and the
row belongs to the user — and equally on the not-owned or 404 paths)
never changes the user row: the profile weight and the four goal fields
keep their values even when the deleted entry was the latest one, and no
other log table is touched. -/
theorem claim_C10_delete_weight_frame (db : AppDB) (wid : ℕ) :
    ((delete_weight db wid).getD db).user = db.user ∧
    ((delete_weight db wid).getD db).food_logs = db.food_logs ∧
    ((delete_weight db wid).getD db).sessions = db.sessions ∧
    ((delete_weight db wid).getD db).exercise_sets = db.exercise_sets := by
  rcases hfind : db.weight_logs.find? (fun l => l.id == wid) with _ | l
  · simp only [delete_weight, hfind]
    exact ⟨rfl, rfl, rfl, rfl⟩
  · by_cases ho : l.user_id = db.user.id
    · simp only [delete_weight, hfind, if_pos ho]
      exact ⟨rfl, rfl, rfl, rfl⟩
    · simp only [delete_weight, hfind, if_neg ho]
      exact ⟨rfl, rfl, rfl, rfl⟩
